import Mathlib

/-!
Verification of the batch-normalization CPU engine in
`aten/src/ATen/native/Normalization.cpp` (PyTorch 1.1.0 source tree).

Modelling conventions of the shallow embedding:

* Scalars (`scalar_t`, `accscalar_t`, `double`) are modelled by `ℚ`, so the
  arithmetic is exact.  `std::sqrt` is an external library routine; it is
  modelled by an explicit function parameter `sq : ℚ → ℚ`, so every theorem
  below holds for an arbitrary square-root routine, in particular for the
  real one.  Where a fact about the routine is needed (`sqrt 0 = 0`) it is
  taken as a hypothesis.  Division follows Lean's total-field convention
  `x / 0 = 0`.
* A tensor of shape `[n_batch, n_channel, image_size]` is a function
  `ℕ → ℕ → ℕ → ℚ` (batch index, channel index, spatial index) together with
  the extents `nb`, `imageSize` that the source loops run over.
* An optional 1-d tensor (`weight`, `bias`, `running_mean`, `running_var`,
  `save_mean`, `save_invstd`) is an `Option (ℕ → ℚ)`.
* In-place mutation of the running statistics is modelled by returning the
  post-call contents of those arrays next to the regular return value.
* Contiguity is tensor metadata with no bearing on the value model; the
  `is_contiguous()` tests of the dispatcher are modelled by `Bool`
  parameters.
* `AT_CHECK` / `AT_ERROR` / `AT_ASSERTM` failures are modelled by
  `Except String`.
-/

namespace ATenNorm

/-- `InvStd<T>::operator()` (Normalization.cpp lines 39-48): emits
`1 / sqrt(var + epsilon)` guarded by `var != 0 || epsilon != 0`;
otherwise `0`. -/
def InvStd (sq : ℚ → ℚ) (var eps : ℚ) : ℚ :=
  if var ≠ 0 ∨ eps ≠ 0 then 1 / sq (var + eps) else 0

/-- `Var<T>::operator()` (lines 50-55): the identity transform on the
biased variance. -/
def Var (var _eps : ℚ) : ℚ := var

/-- `conditional_accessor_1d` (lines 31-37): an undefined tensor yields the
null accessor.  A read through the null accessor (which the source never
performs on the intended call paths) is modelled as `0`. -/
def conditional_accessor_1d (t : Option (ℕ → ℚ)) : ℕ → ℚ :=
  fun f => match t with
  | some a => a f
  | none => 0

/-- The inline `t.defined() ? t_data[f] : d` pattern used for `weight`
(default `1`) and `bias` (default `0`) at lines 93-94, 170-171, 271. -/
def paramGet (t : Option (ℕ → ℚ)) (d : ℚ) (f : ℕ) : ℚ :=
  match t with
  | some a => a f
  | none => d

/-- The linear coefficient `alpha(c) = inv_var(c) * weight(c)` written by
the fast path's coefficient loop (lines 91-95), with
`inv_var(c) = 1 / sqrt(var(c) + eps)` (line 92, unguarded). -/
def bn_fast_alpha (sq : ℚ → ℚ) (weight : Option (ℕ → ℚ)) (var : ℕ → ℚ)
    (eps : ℚ) : ℕ → ℚ :=
  fun c => (1 / sq (var c + eps)) * paramGet weight 1 c

/-- The constant coefficient
`beta(c) = bias(c) - mean(c) * inv_var(c) * weight(c)` written by the fast
path's coefficient loop (line 96). -/
def bn_fast_beta (sq : ℚ → ℚ) (weight bias : Option (ℕ → ℚ))
    (mean var : ℕ → ℚ) (eps : ℚ) : ℕ → ℚ :=
  fun c => paramGet bias 0 c - mean c * (1 / sq (var c + eps)) * paramGet weight 1 c

/-- `batch_norm_cpu_inference_contiguous` (lines 61-126).  The source first
fills the `alpha`/`beta` arrays, then runs one of two loop nests selected by
`image_size != 1`; both write `input * alpha(c) + beta(c)` at each in-bounds
offset (the `image_size == 1` nest has no inner spatial loop, i.e. it only
touches spatial index `0`). -/
def batch_norm_cpu_inference_contiguous (sq : ℚ → ℚ) (imageSize : ℕ)
    (input : ℕ → ℕ → ℕ → ℚ) (weight bias : Option (ℕ → ℚ))
    (mean var : ℕ → ℚ) (eps : ℚ) : ℕ → ℕ → ℕ → ℚ :=
  fun n c i =>
    if imageSize ≠ 1 then
      input n c i * bn_fast_alpha sq weight var eps c
        + bn_fast_beta sq weight bias mean var eps c
    else
      input n c 0 * bn_fast_alpha sq weight var eps c
        + bn_fast_beta sq weight bias mean var eps c

/-- The general (non-fast) elementwise branch of
`batch_norm_cpu_transform_input_template` (lines 147-177): per feature `f`,
`mean`/`invstd` come from the saved statistics when `train` and from the
running statistics (with `invstd = 1 / sqrt(running_var[f] + eps)`, line
166) otherwise; the output is `((i - mean) * invstd) * w + b` (line 174). -/
def bn_general_output (sq : ℚ → ℚ) (input : ℕ → ℕ → ℕ → ℚ)
    (weight bias save_mean save_invstd running_mean running_var : Option (ℕ → ℚ))
    (train : Bool) (eps : ℚ) : ℕ → ℕ → ℕ → ℚ :=
  fun n f i =>
    let mean : ℚ := if train then conditional_accessor_1d save_mean f
                    else conditional_accessor_1d running_mean f
    let invstd : ℚ := if train then conditional_accessor_1d save_invstd f
                      else 1 / sq (conditional_accessor_1d running_var f + eps)
    ((input n f i - mean) * invstd) * paramGet weight 1 f + paramGet bias 0 f

/-- The fast-path test of `batch_norm_cpu_transform_input_template`
(lines 138-142): `!train && input.is_contiguous() && (!weight.defined() ||
weight.is_contiguous()) && (!bias.defined() || bias.is_contiguous()) &&
running_mean.is_contiguous() && running_var.is_contiguous()`.  Note that it
does not inspect `image_size`. -/
def useFastPath (train : Bool) (input_contig : Bool)
    (weight : Option (ℕ → ℚ)) (wc : Bool)
    (bias : Option (ℕ → ℚ)) (bc rmc rvc : Bool) : Bool :=
  !train && input_contig && (!weight.isSome || wc) && (!bias.isSome || bc)
    && rmc && rvc

/-- `batch_norm_cpu_transform_input_template` (lines 128-179): dispatches to
the contiguous fast path or to the general elementwise path, and forwards
`save_mean`/`save_invstd` unchanged in the returned tuple. -/
def batch_norm_cpu_transform_input_template (sq : ℚ → ℚ) (imageSize : ℕ)
    (input : ℕ → ℕ → ℕ → ℚ)
    (weight bias save_mean save_invstd running_mean running_var : Option (ℕ → ℚ))
    (train : Bool) (eps : ℚ)
    (input_contig wc bc rmc rvc : Bool) :
    (ℕ → ℕ → ℕ → ℚ) × Option (ℕ → ℚ) × Option (ℕ → ℚ) :=
  if useFastPath train input_contig weight wc bias bc rmc rvc then
    (batch_norm_cpu_inference_contiguous sq imageSize input weight bias
      (conditional_accessor_1d running_mean) (conditional_accessor_1d running_var) eps,
     save_mean, save_invstd)
  else
    (bn_general_output sq input weight bias save_mean save_invstd
      running_mean running_var train eps,
     save_mean, save_invstd)

/-- Return value of the statistics reducer: the two freshly allocated
per-feature arrays plus the post-call contents of the (in-place mutated)
running-state arrays. -/
structure UpdateStatsResult where
  save_mean : ℕ → ℚ
  save_var_transform : ℕ → ℚ
  running_mean : Option (ℕ → ℚ)
  running_var : Option (ℕ → ℚ)

/-- `batch_norm_cpu_update_stats_template` (lines 181-229).  Per feature
`f`: `n = numel / n_input = nb * imageSize`; `mean = (Σ input) / n`
(line 208); `var_sum = Σ (input - mean)²` (second pass, lines 212-215);
`save_var_transform[f] = VarTransform(var_sum / n, eps)` (line 216); the
running statistics, when defined, are updated in place by the
exponential-moving-average rule of lines 219-225, the variance one through
the unbiased estimator `var_sum / (n - 1)` (line 223). -/
def batch_norm_cpu_update_stats_template (vt : ℚ → ℚ → ℚ) (nb imageSize : ℕ)
    (input : ℕ → ℕ → ℕ → ℚ) (running_mean running_var : Option (ℕ → ℚ))
    (momentum eps : ℚ) : UpdateStatsResult :=
  let n : ℚ := ((nb * imageSize : ℕ) : ℚ)
  let mean : ℕ → ℚ := fun f =>
    (∑ b ∈ Finset.range nb, ∑ i ∈ Finset.range imageSize, input b f i) / n
  let var_sum : ℕ → ℚ := fun f =>
    ∑ b ∈ Finset.range nb, ∑ i ∈ Finset.range imageSize,
      (input b f i - mean f) * (input b f i - mean f)
  { save_mean := mean
    save_var_transform := fun f => vt (var_sum f / n) eps
    running_mean := running_mean.map fun rm => fun f =>
      momentum * mean f + (1 - momentum) * rm f
    running_var := running_var.map fun rv => fun f =>
      momentum * (var_sum f / (n - 1)) + (1 - momentum) * rv f }

/-- Return value of the backward engine; a gradient not requested through
the mask is left unallocated (lines 239-250). -/
structure BackwardResult where
  grad_input : Option (ℕ → ℕ → ℕ → ℚ)
  grad_weight : Option (ℕ → ℚ)
  grad_bias : Option (ℕ → ℚ)

/-- `batch_norm_backward_cpu_template` (lines 232-333).  Per feature `f`:
`w = weight.defined() ? weight[f] : 1` (line 271); `mean`/`invstd` from the
saved statistics when `train`, else from the running statistics with
`invstd = 1 / sqrt(running_var[f] + eps)` (lines 273-280); the reductions
`sum = Σ grad_out` and `dotp = Σ (input - mean) * grad_out` (lines 282-292).
`grad_input` in training mode is produced by two sequential elementwise
passes (lines 303-312): first `gi = (input - mean) * k` with
`k = dotp * invstd * invstd / n`, then `gi = (go - sum/n - gi) * invstd * w`;
in inference mode `gi = go * invstd * w` (lines 318-320).
`grad_weight[f] = dotp * invstd`, `grad_bias[f] = sum` (lines 323-329).
The `std::array<bool,3>` mask is passed as three `Bool`s. -/
def batch_norm_backward_cpu_template (sq : ℚ → ℚ) (nb imageSize : ℕ)
    (grad_out input : ℕ → ℕ → ℕ → ℚ)
    (weight running_mean running_var save_mean save_invstd : Option (ℕ → ℚ))
    (train : Bool) (eps : ℚ) (gmask0 gmask1 gmask2 : Bool) : BackwardResult :=
  let n : ℚ := ((nb * imageSize : ℕ) : ℚ)
  let w : ℕ → ℚ := fun f => paramGet weight 1 f
  let mean : ℕ → ℚ := fun f =>
    if train then conditional_accessor_1d save_mean f
    else conditional_accessor_1d running_mean f
  let invstd : ℕ → ℚ := fun f =>
    if train then conditional_accessor_1d save_invstd f
    else 1 / sq (conditional_accessor_1d running_var f + eps)
  let sum : ℕ → ℚ := fun f =>
    ∑ b ∈ Finset.range nb, ∑ i ∈ Finset.range imageSize, grad_out b f i
  let dotp : ℕ → ℚ := fun f =>
    ∑ b ∈ Finset.range nb, ∑ i ∈ Finset.range imageSize,
      (input b f i - mean f) * grad_out b f i
  { grad_input :=
      if gmask0 then
        some (fun b f i =>
          if train then
            let k : ℚ := dotp f * invstd f * invstd f / n
            let gi : ℚ := (input b f i - mean f) * k
            let grad_mean : ℚ := sum f / n
            (grad_out b f i - grad_mean - gi) * invstd f * w f
          else
            grad_out b f i * invstd f * w f)
      else none
    grad_weight := if gmask1 then some (fun f => dotp f * invstd f) else none
    grad_bias := if gmask2 then some (fun f => sum f) else none }

/-- View of the (possibly absent) input gradient. -/
def gradInputOf (r : BackwardResult) : ℕ → ℕ → ℕ → ℚ :=
  r.grad_input.getD fun _ _ _ => 0

/-- Return value of the CPU forward entry: the tuple of line 582/585 plus
the post-call contents of the running-state arrays. -/
structure BNForwardResult where
  output : ℕ → ℕ → ℕ → ℚ
  save_mean : Option (ℕ → ℚ)
  save_invstd : Option (ℕ → ℚ)
  running_mean : Option (ℕ → ℚ)
  running_var : Option (ℕ → ℚ)

/-- `batch_norm_cpu` (lines 575-588): in evaluation mode (`!train`) only the
transform runs, with undefined saved statistics; in training mode the
statistics reducer runs first with the `InvStd` policy and its results are
fed to the transform.  The running-state arrays are mutated in place only by
the reducer. -/
def batch_norm_cpu (sq : ℚ → ℚ) (nb imageSize : ℕ) (input : ℕ → ℕ → ℕ → ℚ)
    (weight bias running_mean running_var : Option (ℕ → ℚ))
    (train : Bool) (momentum eps : ℚ)
    (input_contig wc bc rmc rvc : Bool) : BNForwardResult :=
  if !train then
    let t := batch_norm_cpu_transform_input_template sq imageSize input weight bias
      none none running_mean running_var train eps input_contig wc bc rmc rvc
    ⟨t.1, t.2.1, t.2.2, running_mean, running_var⟩
  else
    let s := batch_norm_cpu_update_stats_template (InvStd sq) nb imageSize input
      running_mean running_var momentum eps
    let t := batch_norm_cpu_transform_input_template sq imageSize input weight bias
      (some s.save_mean) (some s.save_var_transform) s.running_mean s.running_var
      train eps input_contig wc bc rmc rvc
    ⟨t.1, t.2.1, t.2.2, s.running_mean, s.running_var⟩

/-- `batch_norm_update_stats_cpu` (lines 568-573): the reducer instantiated
with the raw-variance policy `Var` and `eps = 0`. -/
def batch_norm_update_stats_cpu (nb imageSize : ℕ) (input : ℕ → ℕ → ℕ → ℚ)
    (running_mean running_var : Option (ℕ → ℚ)) (momentum : ℚ) :
    UpdateStatsResult :=
  batch_norm_cpu_update_stats_template Var nb imageSize input
    running_mean running_var momentum 0

/-- The three concrete implementations the backend selector can route to. -/
inductive Backend
  | native
  | cudnn
  | miopen
deriving DecidableEq

/-- The element scalar types the selector's conditions distinguish. -/
inductive ScalarType
  | float
  | double
  | half
deriving DecidableEq

/-- Build/runtime environment probed by the selector (CUDA hooks, library
versions, line 12's `MIOPEN_DIM_MAX` is a constant below). -/
structure FwdEnv where
  compiledWithCuDNN : Bool
  versionCuDNN : ℤ
  batchnormMinEpsilonCuDNN : ℚ
  compiledWithMIOpen : Bool

/-- Metadata of the input tensor inspected by the selector. -/
structure InputMeta where
  num_features : ℕ
  size0 : ℤ
  is_cuda : Bool
  scalar_type : ScalarType
  dim : ℕ

/-- Line 12. -/
def MIOPEN_DIM_MAX : ℕ := 4

/-- `check_dims_match_num_input_features` (lines 17-20). -/
def check_dims_match_num_input_features (arg_name : String)
    (expected actual : ℕ) : Except String Unit :=
  if actual = expected then Except.ok ()
  else Except.error (arg_name ++ " should contain " ++ toString expected
    ++ " elements not " ++ toString actual)

/-- Sequencing of two fatal checks: the second runs only if the first
passed (`AT_CHECK`/`AT_ERROR` abort immediately). -/
def seqChecks (a b : Except String Unit) : Except String Unit :=
  match a with
  | Except.error e => Except.error e
  | Except.ok _ => b

/-- The validation stage of `_batch_norm_impl_index` (lines 343-359): each
optional array, when defined, must match the feature extent; `running_mean`
and `running_var`, when undefined in evaluation mode, are fatal.  Optional
1-d arrays are modelled here by their `numel`. -/
def bn_impl_index_checks (num_features : ℕ)
    (running_mean running_var weight bias : Option ℕ) (training : Bool) :
    Except String Unit :=
  seqChecks
    (match running_mean with
     | some m => check_dims_match_num_input_features "running_mean" num_features m
     | none =>
       if !training then Except.error "running_mean must be defined in evaluation mode"
       else Except.ok ())
    (seqChecks
      (match running_var with
       | some v => check_dims_match_num_input_features "running_var" num_features v
       | none =>
         if !training then Except.error "running_var must be defined in evaluation mode"
         else Except.ok ())
      (seqChecks
        (match weight with
         | some w => check_dims_match_num_input_features "weight" num_features w
         | none => Except.ok ())
        (match bias with
         | some b => check_dims_match_num_input_features "bias" num_features b
         | none => Except.ok ())))

/-- `_batch_norm_impl_index` (lines 339-407): after validation, pick cuDNN
(tag 1), MIOpen (tag 2) or the native engine (tag 0), recording which
backend ran next to the tag.  `weight_scalar_type` carries
`weight.scalar_type()`, read by the conditions before `weight.defined()` in
the source's short-circuit chains. -/
def batch_norm_impl_index (env : FwdEnv) (input : InputMeta)
    (weight bias running_mean running_var : Option ℕ)
    (weight_scalar_type : ScalarType)
    (training : Bool) (eps : ℚ) (cudnn_enabled : Bool) :
    Except String (Backend × ℤ) :=
  match bn_impl_index_checks input.num_features running_mean running_var
      weight bias training with
  | Except.error e => Except.error e
  | Except.ok _ =>
    let use_cudnn : Bool := input.is_cuda
      && (decide (input.scalar_type ≠ ScalarType.half)
        || decide (weight_scalar_type = ScalarType.float))
      && weight.isSome && bias.isSome
      && ((running_mean.isSome && running_var.isSome)
        || (!running_mean.isSome && !running_var.isSome && training))
      && decide (input.size0 ≤ 131070)
      && env.compiledWithCuDNN && cudnn_enabled
      && decide (5110 ≤ env.versionCuDNN)
    if use_cudnn && decide (env.batchnormMinEpsilonCuDNN ≤ eps) then
      Except.ok (Backend.cudnn, 1)
    else
      let use_miopen : Bool := input.is_cuda
        && decide (input.dim ≤ MIOPEN_DIM_MAX)
        && decide (input.scalar_type ≠ ScalarType.double)
        && decide (weight_scalar_type ≠ ScalarType.half)
        && weight.isSome && bias.isSome
        && ((running_mean.isSome && running_var.isSome)
          || (!running_mean.isSome && !running_var.isSome && training))
        && env.compiledWithMIOpen
      if use_miopen then Except.ok (Backend.miopen, 2)
      else Except.ok (Backend.native, 0)

/-- `_batch_norm_impl_index_backward` (lines 409-423): routes on the
recorded tag alone; tags other than 0, 1, 2 hit the `AT_ASSERTM`. -/
def batch_norm_impl_index_backward (impl_index : ℤ) : Except String Backend :=
  if impl_index = 0 then Except.ok Backend.native
  else if impl_index = 1 then Except.ok Backend.cudnn
  else if impl_index = 2 then Except.ok Backend.miopen
  else Except.error ("Unsupported impl_index in _batch_norm_impl_index_backward: "
    ++ toString impl_index)

/-- The §8 concrete-scenario input of shape `[2, 3, 1]`: batch element 0 is
`[1, 2, 3]`, batch element 1 is `[3, 4, 5]`, so feature `f` holds the pair
`{f + 1, f + 3}`. -/
def scenario_input : ℕ → ℕ → ℕ → ℚ := fun b f _ => (f : ℚ) + 1 + 2 * (b : ℚ)

/-! ## Shared lemmas -/

/-- At every in-bounds offset the contiguous fast path produces exactly the
value of the general inference path on the same statistics. -/
theorem bn_fast_eq_general (sq : ℚ → ℚ) (imageSize : ℕ)
    (input : ℕ → ℕ → ℕ → ℚ)
    (weight bias running_mean running_var : Option (ℕ → ℚ)) (eps : ℚ)
    (n c i : ℕ) (hi : i < imageSize) :
    batch_norm_cpu_inference_contiguous sq imageSize input weight bias
      (conditional_accessor_1d running_mean) (conditional_accessor_1d running_var)
      eps n c i
    = bn_general_output sq input weight bias none none running_mean running_var
      false eps n c i := by
  unfold batch_norm_cpu_inference_contiguous bn_general_output bn_fast_alpha bn_fast_beta
  by_cases h1 : imageSize = 1
  · subst h1
    have hi0 : i = 0 := by omega
    subst hi0
    simp
    ring
  · simp [h1]
    ring

/-- With `sqrt 0 = 0` (a fact of the square-root routine) the guard of
`InvStd` is invisible in exact arithmetic with total division: the emitted
value is `1 / sqrt(var + eps)` for every `var` and `eps`. -/
theorem InvStd_eq (sq : ℚ → ℚ) (h0 : sq 0 = 0) (var eps : ℚ) :
    InvStd sq var eps = 1 / sq (var + eps) := by
  unfold InvStd
  by_cases h : var ≠ 0 ∨ eps ≠ 0
  · simp [h]
  · push_neg at h
    obtain ⟨h1, h2⟩ := h
    simp [h1, h2, h0]

/-! ## Claims -/

/-- C1: when `grad_input` is requested, the backward engine computes, in
training mode,
`grad_input = ((grad_out - sum/n) - (input - mean) * dotp * invstd^2 / n) * invstd * weight`
with `sum = Σ grad_out` and `dotp = Σ (input - mean) * grad_out`, and in
inference mode `grad_input = grad_out * invstd * weight` with no correction
term; `mean`/`invstd` come from the saved statistics in training mode and
from the running statistics (`invstd = 1 / sqrt(running_var + eps)`) in
inference mode. -/
theorem C1_backward_grad_input_formula (sq : ℚ → ℚ) (nb imageSize : ℕ)
    (grad_out input : ℕ → ℕ → ℕ → ℚ)
    (weight running_mean running_var save_mean save_invstd : Option (ℕ → ℚ))
    (train : Bool) (eps : ℚ) (gmask1 gmask2 : Bool) (b f i : ℕ) :
    (let r := batch_norm_backward_cpu_template sq nb imageSize grad_out input
      weight running_mean running_var save_mean save_invstd train eps
      true gmask1 gmask2
    let n : ℚ := ((nb * imageSize : ℕ) : ℚ)
    let mean : ℚ := if train then conditional_accessor_1d save_mean f
                    else conditional_accessor_1d running_mean f
    let invstd : ℚ := if train then conditional_accessor_1d save_invstd f
                      else 1 / sq (conditional_accessor_1d running_var f + eps)
    let w : ℚ := paramGet weight 1 f
    let S : ℚ := ∑ b' ∈ Finset.range nb, ∑ i' ∈ Finset.range imageSize,
      grad_out b' f i'
    let D : ℚ := ∑ b' ∈ Finset.range nb, ∑ i' ∈ Finset.range imageSize,
      (input b' f i' - mean) * grad_out b' f i'
    r.grad_input.isSome = true ∧
    gradInputOf r b f i =
      if train then
        ((grad_out b f i - S / n) - (input b f i - mean) * D * invstd ^ 2 / n)
          * invstd * w
      else
        grad_out b f i * invstd * w) := by
  dsimp only
  constructor
  · simp [batch_norm_backward_cpu_template]
  · cases train
    · simp only [batch_norm_backward_cpu_template, gradInputOf, Option.getD_some,
        Bool.false_eq_true, if_false, if_true, reduceIte]
    · simp only [batch_norm_backward_cpu_template, gradInputOf, Option.getD_some,
        Bool.false_eq_true, if_false, if_true, reduceIte]
      ring

/-- C2: when the running-state arrays are supplied to the training-mode
statistics reducer, they are updated in place by
`running_mean = momentum * mean + (1 - momentum) * running_mean` and
`running_var = momentum * (var_sum / (n - 1)) + (1 - momentum) * running_var`
(the unbiased estimator), while the per-feature value emitted for the
current forward pass is the transform of the biased estimator
`var_sum / n`. -/
theorem C2_running_state_ema (vt : ℚ → ℚ → ℚ) (nb imageSize : ℕ)
    (input : ℕ → ℕ → ℕ → ℚ) (rm rv : ℕ → ℚ) (momentum eps : ℚ) (f : ℕ) :
    (let r := batch_norm_cpu_update_stats_template vt nb imageSize input
      (some rm) (some rv) momentum eps
    let n : ℚ := ((nb * imageSize : ℕ) : ℚ)
    let mean : ℚ :=
      (∑ b ∈ Finset.range nb, ∑ i ∈ Finset.range imageSize, input b f i) / n
    let var_sum : ℚ := ∑ b ∈ Finset.range nb, ∑ i ∈ Finset.range imageSize,
      (input b f i - mean) ^ 2
    r.running_mean.isSome = true ∧ r.running_var.isSome = true
    ∧ conditional_accessor_1d r.running_mean f
        = momentum * mean + (1 - momentum) * rm f
    ∧ conditional_accessor_1d r.running_var f
        = momentum * (var_sum / (n - 1)) + (1 - momentum) * rv f
    ∧ r.save_var_transform f = vt (var_sum / n) eps) := by
  dsimp only
  refine ⟨rfl, rfl, rfl, ?_, ?_⟩
  · simp [batch_norm_cpu_update_stats_template, conditional_accessor_1d, pow_two]
  · have h2 : ∀ g : ℕ → ℕ → ℚ,
        (∑ b ∈ Finset.range nb, ∑ i ∈ Finset.range imageSize, (g b i) ^ 2)
        = ∑ b ∈ Finset.range nb, ∑ i ∈ Finset.range imageSize, g b i * g b i := by
      intro g
      simp [pow_two]
    rw [h2 (fun b i => input b f i - _)]
    rfl

/-- C3: the statistics reducer emits, per feature, either the raw biased
variance `var_sum / n` (policy `Var`) or the ready-to-use inverse standard
deviation `1 / sqrt(var_sum / n + epsilon)` (policy `InvStd`), the choice
being the compile-time `VarTransform` parameter of the shared reduction;
under the inverse-std policy the emitted value equals
`1 / sqrt(var_sum / n + epsilon)` for every input and epsilon (given
`sqrt 0 = 0`, a fact of the square-root routine, and total division). -/
theorem C3_var_transform_policy (sq : ℚ → ℚ) (h0 : sq 0 = 0)
    (nb imageSize : ℕ) (input : ℕ → ℕ → ℕ → ℚ)
    (running_mean running_var : Option (ℕ → ℚ)) (momentum eps : ℚ) (f : ℕ) :
    (let n : ℚ := ((nb * imageSize : ℕ) : ℚ)
    let mean : ℚ :=
      (∑ b ∈ Finset.range nb, ∑ i ∈ Finset.range imageSize, input b f i) / n
    let var_sum : ℚ := ∑ b ∈ Finset.range nb, ∑ i ∈ Finset.range imageSize,
      (input b f i - mean) * (input b f i - mean)
    (batch_norm_cpu_update_stats_template (InvStd sq) nb imageSize input
        running_mean running_var momentum eps).save_var_transform f
      = 1 / sq (var_sum / n + eps)
    ∧ (batch_norm_cpu_update_stats_template Var nb imageSize input
        running_mean running_var momentum eps).save_var_transform f
      = var_sum / n) := by
  dsimp only
  exact ⟨InvStd_eq sq h0 _ eps, rfl⟩

/-- C3 witness: with the identity standing in for the square-root routine
(`sq 0 = 0` holds by `rfl`), input all `3` of shape `[1, 1, 1]` and
`eps = 1/2`, the `InvStd` policy emits `1 / (0/1 + 1/2) = 2` and the `Var`
policy emits `0`. -/
theorem C3_var_transform_policy_witness :
    (batch_norm_cpu_update_stats_template (InvStd (fun x => x)) 1 1
        (fun _ _ _ => 3) none none (1 / 10) (1 / 2)).save_var_transform 0 = 2
    ∧ (batch_norm_cpu_update_stats_template Var 1 1
        (fun _ _ _ => 3) none none (1 / 10) (1 / 2)).save_var_transform 0 = 0 := by
  have h := C3_var_transform_policy (fun x => x) rfl 1 1 (fun _ _ _ => 3)
    none none (1 / 10) (1 / 2) 0
  constructor
  · rw [h.1]
    norm_num [Finset.sum_range_succ]
  · rw [h.2]
    norm_num [Finset.sum_range_succ]

/-- C4: under the fast-path precondition the per-element computation
`output = input * alpha(c) + beta(c)` with `alpha(c) = invstd(c) * weight(c)`
and `beta(c) = bias(c) - mean(c) * alpha(c)` is, in exact arithmetic,
identical to the general inference path's
`output = (input - mean(c)) * invstd(c) * weight(c) + bias(c)` at every
in-bounds element. -/
theorem C4_fast_path_algebraic_equivalence (sq : ℚ → ℚ) (imageSize : ℕ)
    (input : ℕ → ℕ → ℕ → ℚ)
    (weight bias running_mean running_var : Option (ℕ → ℚ)) (eps : ℚ)
    (n c i : ℕ) (hi : i < imageSize) :
    batch_norm_cpu_inference_contiguous sq imageSize input weight bias
      (conditional_accessor_1d running_mean) (conditional_accessor_1d running_var)
      eps n c i
    = bn_general_output sq input weight bias none none running_mean running_var
      false eps n c i :=
  bn_fast_eq_general sq imageSize input weight bias running_mean running_var
    eps n c i hi

/-- C4 witness. -/
theorem C4_fast_path_algebraic_equivalence_witness :
    batch_norm_cpu_inference_contiguous (fun x => x) 1 (fun _ _ _ => 5)
      (some (fun _ => 2)) (some (fun _ => 3))
      (conditional_accessor_1d (some (fun _ => 1)))
      (conditional_accessor_1d (some (fun _ => 4))) (1 / 2) 0 0 0
    = bn_general_output (fun x => x) (fun _ _ _ => 5) (some (fun _ => 2))
      (some (fun _ => 3)) none none (some (fun _ => 1)) (some (fun _ => 4))
      false (1 / 2) 0 0 0 :=
  C4_fast_path_algebraic_equivalence (fun x => x) 1 (fun _ _ _ => 5)
    (some (fun _ => 2)) (some (fun _ => 3)) (some (fun _ => 1))
    (some (fun _ => 4)) (1 / 2) 0 0 0 (by decide)

/-- C5: with `training == false`, a missing `running_mean` or `running_var`
makes the forward entry fail fatally at its validation stage: the result is
an error, so no output is produced and no backend computation runs. -/
theorem C5_missing_running_state_fatal (env : FwdEnv) (input : InputMeta)
    (weight bias running_mean running_var : Option ℕ)
    (weight_scalar_type : ScalarType) (eps : ℚ) (cudnn_enabled : Bool)
    (h : running_mean = none ∨ running_var = none) :
    ∃ msg, batch_norm_impl_index env input weight bias running_mean running_var
      weight_scalar_type false eps cudnn_enabled = Except.error msg := by
  have hchecks : ∃ msg, bn_impl_index_checks input.num_features running_mean
      running_var weight bias false = Except.error msg := by
    rcases h with h | h
    · subst h
      exact ⟨_, rfl⟩
    · subst h
      cases running_mean with
      | none => exact ⟨_, rfl⟩
      | some m =>
        rcases eq_or_ne m input.num_features with hm | hm
        · subst hm
          refine ⟨"running_var must be defined in evaluation mode", ?_⟩
          simp [bn_impl_index_checks, seqChecks, check_dims_match_num_input_features]
        · refine ⟨"running_mean should contain " ++ toString input.num_features
            ++ " elements not " ++ toString m, ?_⟩
          simp [bn_impl_index_checks, seqChecks, check_dims_match_num_input_features, hm]
  obtain ⟨msg, hmsg⟩ := hchecks
  refine ⟨msg, ?_⟩
  unfold batch_norm_impl_index
  rw [hmsg]

/-- C5 witness. -/
theorem C5_missing_running_state_fatal_witness :
    ∃ msg, batch_norm_impl_index ⟨false, 0, 0, false⟩
      ⟨3, 1, false, ScalarType.float, 3⟩ none none none (some 3)
      ScalarType.float false (1 / 100000) false = Except.error msg :=
  C5_missing_running_state_fatal ⟨false, 0, 0, false⟩
    ⟨3, 1, false, ScalarType.float, 3⟩ none none none (some 3)
    ScalarType.float (1 / 100000) false (Or.inl rfl)

/-- C6: the backward dispatcher routes solely on the recorded tag: tag 0
invokes the native backward, tag 1 the cudnn backward, tag 2 the miopen
backward — exactly the tags the forward selector records for those
backends — and any other tag is a fatal assertion failure.  (The routing
function takes nothing but the tag, so it cannot re-derive eligibility from
tensor properties.) -/
theorem C6_backward_routing (t : ℤ) :
    (∀ (env : FwdEnv) (input : InputMeta)
      (weight bias running_mean running_var : Option ℕ)
      (weight_scalar_type : ScalarType) (training : Bool) (eps : ℚ)
      (cudnn_enabled : Bool) (be : Backend) (tag : ℤ),
      batch_norm_impl_index env input weight bias running_mean running_var
        weight_scalar_type training eps cudnn_enabled = Except.ok (be, tag) →
      batch_norm_impl_index_backward tag = Except.ok be)
    ∧ batch_norm_impl_index_backward 0 = Except.ok Backend.native
    ∧ batch_norm_impl_index_backward 1 = Except.ok Backend.cudnn
    ∧ batch_norm_impl_index_backward 2 = Except.ok Backend.miopen
    ∧ (t ≠ 0 → t ≠ 1 → t ≠ 2 →
        batch_norm_impl_index_backward t
          = Except.error ("Unsupported impl_index in _batch_norm_impl_index_backward: "
              ++ toString t)) := by
  refine ⟨?_, rfl, rfl, rfl, ?_⟩
  · intro env input w b rm rv wst training eps ce be tag h
    unfold batch_norm_impl_index at h
    cases hc : bn_impl_index_checks input.num_features rm rv w b training with
    | error e =>
      rw [hc] at h
      exact absurd h (by simp)
    | ok u =>
      rw [hc] at h
      dsimp only at h
      split at h
      · cases h
        rfl
      · split at h
        · cases h
          rfl
        · cases h
          rfl
  · intro h0 h1 h2
    unfold batch_norm_impl_index_backward
    rw [if_neg h0, if_neg h1, if_neg h2]

/-- C6 witness. -/
theorem C6_backward_routing_witness :
    batch_norm_impl_index_backward 0 = Except.ok Backend.native
    ∧ batch_norm_impl_index_backward 5
      = Except.error ("Unsupported impl_index in _batch_norm_impl_index_backward: "
          ++ toString (5 : ℤ)) :=
  ⟨(C6_backward_routing 5).1 ⟨false, 0, 0, false⟩ ⟨3, 1, false, ScalarType.float, 3⟩
      none none none none ScalarType.float true 0 false Backend.native 0 rfl,
    (C6_backward_routing 5).2.2.2.2 (by decide) (by decide) (by decide)⟩

/-- C7: in inference mode (`train == false`) the forward entry leaves the
running statistics (and all other caller-visible state) unchanged, so a
second call with the same arguments yields the identical output — on the
fast path and on the general path alike (the contiguity flags are
arbitrary). -/
theorem C7_idempotent_inference (sq : ℚ → ℚ) (nb imageSize : ℕ)
    (input : ℕ → ℕ → ℕ → ℚ)
    (weight bias running_mean running_var : Option (ℕ → ℚ))
    (momentum eps : ℚ) (input_contig wc bc rmc rvc : Bool) :
    (let r1 := batch_norm_cpu sq nb imageSize input weight bias
      running_mean running_var false momentum eps input_contig wc bc rmc rvc
    let r2 := batch_norm_cpu sq nb imageSize input weight bias
      r1.running_mean r1.running_var false momentum eps input_contig wc bc rmc rvc
    r1.running_mean = running_mean ∧ r1.running_var = running_var
    ∧ r2.output = r1.output
    ∧ r2.save_mean = r1.save_mean ∧ r2.save_invstd = r1.save_invstd
    ∧ r2.running_mean = running_mean ∧ r2.running_var = running_var) :=
  ⟨rfl, rfl, rfl, rfl, rfl, rfl, rfl⟩

/-- C8: the §8 concrete scenario — input shape `[2, 3, 1]` with per-feature
pairs `{1,3}`, `{2,4}`, `{3,5}`, `training = true`, `momentum = 0.1`,
`epsilon = 1e-5`, no weight/bias and no running state — yields saved means
`[2, 3, 4]`, biased variances `[1, 1, 1]`, and output
`(x - mean) / sqrt(1 + 1e-5)` per feature, i.e. `∓1/sqrt(1 + 1e-5)` for the
two batch elements. -/
theorem C8_concrete_scenario (sq : ℚ → ℚ) (input_contig wc bc rmc rvc : Bool)
    (f : ℕ) (hf : f < 3) :
    (let r := batch_norm_cpu sq 2 1 scenario_input none none none none true
      (1 / 10) (1 / 100000) input_contig wc bc rmc rvc
    conditional_accessor_1d r.save_mean f = (f : ℚ) + 2
    ∧ (batch_norm_update_stats_cpu 2 1 scenario_input none none
        (1 / 10)).save_var_transform f = 1
    ∧ r.output 0 f 0 = -(1 / sq (1 + 1 / 100000))
    ∧ r.output 1 f 0 = 1 / sq (1 + 1 / 100000)) := by
  dsimp only
  interval_cases f <;>
    refine ⟨?_, ?_, ?_, ?_⟩ <;>
    · simp [batch_norm_cpu, batch_norm_cpu_update_stats_template,
        batch_norm_cpu_transform_input_template, batch_norm_update_stats_cpu,
        useFastPath, bn_general_output, conditional_accessor_1d, paramGet,
        scenario_input, InvStd, Var, Finset.sum_range_succ]
      norm_num

/-- C8 witness. -/
theorem C8_concrete_scenario_witness :
    conditional_accessor_1d (batch_norm_cpu (fun x => x) 2 1 scenario_input
      none none none none true (1 / 10) (1 / 100000) false false false false
      false).save_mean 0 = 2
    ∧ (batch_norm_cpu (fun x => x) 2 1 scenario_input none none none none true
      (1 / 10) (1 / 100000) false false false false false).output 0 0 0
      = -(1 / (1 + 1 / 100000 : ℚ)) := by
  have h := C8_concrete_scenario (fun x => x) false false false false false 0
    (by decide)
  exact ⟨by simpa using h.1, by simpa using h.2.2.1⟩

/-- C9 counterexample: the fast-path test of the transform dispatcher does
not inspect `image_size`, so under the contiguity precondition with
`image_size == 1` the dispatcher still enters
`batch_norm_cpu_inference_contiguous` — the routine that allocates and
writes the `alpha`/`beta` coefficient arrays — rather than the general
elementwise path, contradicting the claim that the coefficient
precomputation is bypassed. -/
theorem C9_counterexample :
    useFastPath false true (none : Option (ℕ → ℚ)) true
      (none : Option (ℕ → ℚ)) true true true = true
    ∧ (batch_norm_cpu_transform_input_template (fun x => x) 1 (fun _ _ _ => 1)
        none none none none (some (fun _ => 0)) (some (fun _ => 1)) false 0
        true true true true true).1
      = batch_norm_cpu_inference_contiguous (fun x => x) 1 (fun _ _ _ => 1)
        none none (conditional_accessor_1d (some (fun _ => 0)))
        (conditional_accessor_1d (some (fun _ => 1))) 0 :=
  ⟨rfl, rfl⟩

/-- C9 (amended): the fast-path test ignores `image_size`; whenever the
contiguity precondition holds — `image_size == 1` included — the dispatcher
takes the coefficient-precomputing fast path, and at the single in-bounds
spatial index its output still equals the general elementwise path. -/
theorem C9_amended_fast_path_taken (sq : ℚ → ℚ) (input : ℕ → ℕ → ℕ → ℚ)
    (weight bias save_mean save_invstd running_mean running_var : Option (ℕ → ℚ))
    (eps : ℚ) (input_contig wc bc rmc rvc : Bool)
    (h : useFastPath false input_contig weight wc bias bc rmc rvc = true)
    (n c : ℕ) :
    (batch_norm_cpu_transform_input_template sq 1 input weight bias save_mean
      save_invstd running_mean running_var false eps
      input_contig wc bc rmc rvc).1
      = batch_norm_cpu_inference_contiguous sq 1 input weight bias
        (conditional_accessor_1d running_mean) (conditional_accessor_1d running_var)
        eps
    ∧ batch_norm_cpu_inference_contiguous sq 1 input weight bias
        (conditional_accessor_1d running_mean) (conditional_accessor_1d running_var)
        eps n c 0
      = bn_general_output sq input weight bias none none running_mean running_var
        false eps n c 0 := by
  constructor
  · simp [batch_norm_cpu_transform_input_template, h]
  · exact bn_fast_eq_general sq 1 input weight bias running_mean running_var
      eps n c 0 (by omega)

/-- C9 amended witness. -/
theorem C9_amended_fast_path_taken_witness :
    (batch_norm_cpu_transform_input_template (fun x => x) 1 (fun _ _ _ => 1)
      none none none none (some (fun _ => 0)) (some (fun _ => 1)) false 0
      true true true true true).1
      = batch_norm_cpu_inference_contiguous (fun x => x) 1 (fun _ _ _ => 1)
        none none (conditional_accessor_1d (some (fun _ => 0)))
        (conditional_accessor_1d (some (fun _ => 1))) 0
    ∧ batch_norm_cpu_inference_contiguous (fun x => x) 1 (fun _ _ _ => 1)
        none none (conditional_accessor_1d (some (fun _ => 0)))
        (conditional_accessor_1d (some (fun _ => 1))) 0 0 0 0
      = bn_general_output (fun x => x) (fun _ _ _ => 1) none none none none
        (some (fun _ => 0)) (some (fun _ => 1)) false 0 0 0 0 :=
  C9_amended_fast_path_taken (fun x => x) (fun _ _ _ => 1) none none none none
    (some (fun _ => 0)) (some (fun _ => 1)) 0 true true true true true rfl 0 0

/-- C10: a training-mode call with `running_var` defined and
`n = batch_size * image_size = 1` reaches the unguarded unbiased
running-variance update `var_sum / (n - 1)` whose divisor `n - 1` is zero:
the updated running variance is computed through a division by zero.
(Total division models the value; the theorem exhibits the zero divisor.) -/
theorem C10_unbiased_variance_divisor_zero (sq : ℚ → ℚ)
    (input : ℕ → ℕ → ℕ → ℚ)
    (weight bias running_mean : Option (ℕ → ℚ)) (rv : ℕ → ℚ)
    (momentum eps : ℚ) (input_contig wc bc rmc rvc : Bool) (f : ℕ) :
    (let r := batch_norm_cpu sq 1 1 input weight bias running_mean (some rv)
      true momentum eps input_contig wc bc rmc rvc
    let n : ℚ := ((1 * 1 : ℕ) : ℚ)
    let var_sum : ℚ := ∑ b ∈ Finset.range 1, ∑ i ∈ Finset.range 1,
      (input b f i
        - (∑ b' ∈ Finset.range 1, ∑ i' ∈ Finset.range 1, input b' f i') / n)
      * (input b f i
        - (∑ b' ∈ Finset.range 1, ∑ i' ∈ Finset.range 1, input b' f i') / n)
    n - 1 = 0
    ∧ r.running_var.isSome = true
    ∧ conditional_accessor_1d r.running_var f
        = momentum * (var_sum / (n - 1)) + (1 - momentum) * rv f) := by
  dsimp only
  refine ⟨by norm_num, rfl, rfl⟩

end ATenNorm
